import Mathlib

/-!
Verification of the transplant remote-execution bridge.

This file gives a shallow embedding of the parts of the repository that the
frozen claims are about:

* the remote side (file transplant/transplant_remote.py): the handle table
  (object_cache together with empty_cache_indexes) with its allocators
  encode_proxy and encode_function, and the dispatch loop message_loop;
* the master side (file transplant/transplant_master.py): the reply handling
  of send_message (error normalization and trace assembly), the dense-matrix
  codec (encode_matrix and decode_matrix, in both the json and the msgpack
  wire format, including the base64 text transport), the sparse-matrix codec
  (encode_sparse_matrix and decode_sparse_matrix), the teardown logic
  (TransplantMaster.exit and Matlab.exit) and the interrupt handling of
  Matlab's call path.

Python values that the remote stores and passes around are modelled by a type
parameter with decidable equality; the surrounding interpreter facilities
(builtins, getattr, setattr, function application, str) are modelled as an
explicit environment record, since they are collaborators of the code under
study, not part of it.  Machine-level byte buffers are lists of naturals
below 256.
-/

/-- A Python exception, reduced to what the remote's send_error transmits:
the exception class name (identifier) and the message text. -/
structure PyErr where
  identifier : String
  message : String
  deriving DecidableEq, Repr

deriving instance DecidableEq for Except

/-- Python list-index resolution: an index is valid if it is in range,
negative indices count from the end (CPython sequence semantics, used by
object_cache lookups and by readlines()[...] in the master). -/
def pyIdx (len : Nat) (i : Int) : Option Nat :=
  if 0 ≤ i ∧ i < (len : Int) then some i.toNat
  else if -(len : Int) ≤ i ∧ i < 0 then some ((len : Int) + i).toNat
  else none

/-- Reading a Python list element, raising IndexError out of range. -/
def pyGet {α : Type} (l : List α) (i : Int) : Except PyErr α :=
  match pyIdx l.length i with
  | some k =>
    match l[k]? with
    | some a => .ok a
    | none => .error ⟨"IndexError", "list index out of range"⟩
  | none => .error ⟨"IndexError", "list index out of range"⟩

/-- Writing a Python list element, raising IndexError out of range. -/
def pySet {α : Type} (l : List α) (i : Int) (a : α) : Except PyErr (List α) :=
  match pyIdx l.length i with
  | some k => .ok (l.set k a)
  | none => .error ⟨"IndexError", "list assignment index out of range"⟩

/-- The values that can appear in the name field of a decoded request: after
decode_values a JSON string stays a string, a JSON integer stays an integer,
and a decoded object/function reference is a live Python object. -/
inductive PyName (α : Type) where
  | str (s : String)
  | int (n : Int)
  | obj (a : α)
  deriving DecidableEq

/-- The mutable state of the remote TransplantClient: the handle table
object_cache, its free list empty_cache_indexes (a deque used with append
and popleft, hence first-in-first-out), and the module globals that the
set/get requests touch.  Free-list entries are Int because del_proxy appends
the raw transmitted handle. -/
structure RemoteState (α : Type) where
  object_cache : List α
  empty_cache_indexes : List Int
  globals_ : List (PyName α × α)
  deriving DecidableEq

/-- The Python runtime facilities the remote calls into; collaborators of the
code under study.  noneV is the Python None value (del_proxy stores it in
freed slots); builtins models dir(__builtins__) membership together with
getattr on the builtins module. -/
structure PyEnv (α : Type) where
  noneV : α
  builtins : String → Option α
  isCallable : α → Bool
  getAttr : α → String → Except PyErr α
  setAttr : α → String → α → Except PyErr Unit
  applyFn : α → List α → List (String × α) → Except PyErr α
  toStr : α → String

/-- A decoded request message: the dict the message loop receives, with the
fields the seven handlers read.  A missing field raises KeyError when read. -/
structure Msg (α : Type) where
  type_ : String
  name : Option (PyName α)
  value : Option α
  handle : Option Int
  args : Option (List α)
  kwargs : Option (List (String × α))

/-- A response of the remote: ack, value or error (the stack field of an
error response, a traceback artifact, is not modelled). -/
inductive RResp (α : Type) where
  | ack
  | value (v : α)
  | error (identifier message : String)
  deriving DecidableEq

/-- Reading a request field, raising KeyError (with the key as message, as
CPython renders it) when the field is absent. -/
def reqField {β : Type} (o : Option β) (key : String) : Except PyErr β :=
  match o with
  | some b => .ok b
  | none => .error ⟨"KeyError", "'" ++ key ++ "'"⟩

/-- Assoc-list update modelling globals()[name] = value. -/
def gset {α : Type} [DecidableEq α] (l : List (PyName α × α)) (k : PyName α) (v : α) :
    List (PyName α × α) :=
  match l with
  | [] => [(k, v)]
  | (k1, v1) :: rest => if k1 = k then (k, v) :: rest else (k1, v1) :: gset rest k v

/-- Assoc-list lookup modelling name in globals() / globals()[name]. -/
def glookup {α : Type} [DecidableEq α] (l : List (PyName α × α)) (k : PyName α) : Option α :=
  match l with
  | [] => none
  | (k1, v1) :: rest => if k1 = k then some v1 else glookup rest k

/-- The str() rendering of a name, used by the format calls in the remote's
error messages. -/
def pyNameStr {α : Type} (env : PyEnv α) (nm : PyName α) : String :=
  match nm with
  | .str s => s
  | .int n => toString n
  | .obj a => env.toStr a

/-- Allocation in the handle table, from encode_proxy (transplant_remote.py
lines 152-165): pop the oldest free index and overwrite that slot if the
free list is nonempty, else append at the end.  Returns the handle placed in
the wire value together with the new state. -/
def encodeProxy {α : Type} (s : RemoteState α) (data : α) :
    Except PyErr (Int × RemoteState α) :=
  match s.empty_cache_indexes with
  | idx :: rest => do
    let cache1 ← pySet s.object_cache idx data
    .ok (idx, { s with object_cache := cache1, empty_cache_indexes := rest })
  | [] =>
    .ok ((s.object_cache.length : Int),
      { s with object_cache := s.object_cache ++ [data] })

/-- Allocation from encode_function (transplant_remote.py lines 176-183);
the source duplicates the body of encode_proxy verbatim. -/
def encodeFunction {α : Type} (s : RemoteState α) (func : α) :
    Except PyErr (Int × RemoteState α) :=
  match s.empty_cache_indexes with
  | idx :: rest => do
    let cache1 ← pySet s.object_cache idx func
    .ok (idx, { s with object_cache := cache1, empty_cache_indexes := rest })
  | [] =>
    .ok ((s.object_cache.length : Int),
      { s with object_cache := s.object_cache ++ [func] })

/-- Resolution of the callee of a call request (transplant_remote.py lines
52-61): a callable decoded object is used directly, an integer is a handle
into the object cache, a string is looked up in globals and then in the
builtins, anything else raises RuntimeError. -/
def resolveCallee {α : Type} [DecidableEq α] (env : PyEnv α) (s : RemoteState α)
    (nm : PyName α) : Except PyErr α :=
  match nm with
  | .obj a =>
    if env.isCallable a then .ok a
    else
      match glookup s.globals_ (.obj a) with
      | some f => .ok f
      | none =>
        .error ⟨"RuntimeError", "Undefined function \"" ++ env.toStr a ++ "\"."⟩
  | .int n => pyGet s.object_cache n
  | .str str =>
    match glookup s.globals_ (.str str) with
    | some f => .ok f
    | none =>
      match env.builtins str with
      | some f => .ok f
      | none =>
        .error ⟨"RuntimeError", "Undefined function \"" ++ str ++ "\"."⟩

/-- One handler dispatch of the remote message loop, before exception
handling: the if/elif chain of message_loop (transplant_remote.py lines
24-66).  Returns the new state, the responses sent, and whether sys.exit was
reached.  In every branch any raise happens before the state is mutated, so
the surrounding exception handler can report errors against the entry
state. -/
def messageCases {α : Type} [DecidableEq α] (env : PyEnv α) (s : RemoteState α)
    (msg : Msg α) : Except PyErr (RemoteState α × List (RResp α) × Bool) :=
  if msg.type_ = "die" then
    .ok (s, [.ack], true)
  else if msg.type_ = "set" then do
    let nm ← reqField msg.name "name"
    let v ← reqField msg.value "value"
    .ok ({ s with globals_ := gset s.globals_ nm v }, [.ack], false)
  else if msg.type_ = "get" then do
    let nm ← reqField msg.name "name"
    match nm with
    | .str str =>
      match env.builtins str with
      | some v => .ok (s, [.value v], false)
      | none =>
        match glookup s.globals_ (.str str) with
        | some v => .ok (s, [.value v], false)
        | none =>
          .error ⟨"NameError", "Undefined variable \"" ++ str ++ "\"."⟩
    | other =>
      match glookup s.globals_ other with
      | some v => .ok (s, [.value v], false)
      | none =>
        .error ⟨"NameError", "Undefined variable \"" ++ pyNameStr env other ++ "\"."⟩
  else if msg.type_ = "set_proxy" then do
    let h ← reqField msg.handle "handle"
    let nm ← reqField msg.name "name"
    let v ← reqField msg.value "value"
    let obj ← pyGet s.object_cache h
    match nm with
    | .str str => do
      let _ ← env.setAttr obj str v
      .ok (s, [.ack], false)
    | _ => .error ⟨"TypeError", "attribute name must be string"⟩
  else if msg.type_ = "get_proxy" then do
    let h ← reqField msg.handle "handle"
    let nm ← reqField msg.name "name"
    let obj ← pyGet s.object_cache h
    match nm with
    | .str str => do
      let v ← env.getAttr obj str
      .ok (s, [.value v], false)
    | _ => .error ⟨"TypeError", "attribute name must be string"⟩
  else if msg.type_ = "del_proxy" then do
    let h ← reqField msg.handle "handle"
    let cache1 ← pySet s.object_cache h env.noneV
    let s1 := { s with object_cache := cache1,
                       empty_cache_indexes := s.empty_cache_indexes ++ [h] }
    .ok (s1, [.ack], false)
  else if msg.type_ = "call" then do
    let nm ← reqField msg.name "name"
    let args ← reqField msg.args "args"
    let kwargs ← reqField msg.kwargs "kwargs"
    let func ← resolveCallee env s nm
    let results ← env.applyFn func args kwargs
    if results ≠ env.noneV then .ok (s, [.value results], false)
    else .ok (s, [.ack], false)
  else
    .ok (s, [], false)

/-- The outcome of processing one request: new state, responses that went
out, and whether the loop exited. -/
structure HandlerOut (α : Type) where
  state : RemoteState α
  responses : List (RResp α)
  exited : Bool
  deriving DecidableEq

/-- One full iteration of message_loop on a received request, including the
except clause that turns any exception into a single error response (the
branches raise only before mutating the state, hence the entry state is
reported). -/
def messageLoopStep {α : Type} [DecidableEq α] (env : PyEnv α) (s : RemoteState α)
    (msg : Msg α) : HandlerOut α :=
  match messageCases env s msg with
  | .ok (s1, rs, ex) => ⟨s1, rs, ex⟩
  | .error e => ⟨s, [.error e.identifier e.message], false⟩

/-- The request types for which the if/elif chain of message_loop has a
branch. -/
def handledTypes : List String :=
  ["die", "set", "get", "set_proxy", "get_proxy", "del_proxy", "call"]

/-- One stack frame of a remote error, as decoded from the wire: source file
(or null), line number and routine name.  Line numbers on the wire are
integral (the master renders them with a zero-decimals float format and
indexes with int(line)); they are modelled as integers. -/
structure Frame where
  file : Option String
  line : Int
  name : String
  deriving DecidableEq, Repr

/-- The wire form of the stack field of an error reply: either a bare map of
a single frame or a list of frames (transplant_master.py line 167 checks for
the former with isinstance(dict)). -/
inductive WireStack where
  | smap (f : Frame)
  | slist (fs : List Frame)
  deriving DecidableEq, Repr

/-- The dict normalization of send_message (transplant_master.py lines
167-168): a bare single-frame map becomes a one-element list. -/
def normStack (w : WireStack) : List Frame :=
  match w with
  | .smap f => [f]
  | .slist fs => fs

/-- A decoded reply, with the fields send_message reads: the type tag and,
for error replies, message, identifier and stack. -/
structure DecResponse where
  type_ : String
  message : String
  identifier : String
  stack : WireStack
  deriving DecidableEq, Repr

/-- The structured error raised by send_message for an error reply
(class TransplantError, transplant_master.py lines 61-68). -/
structure TransplantErrorData where
  message : String
  stack : List Frame
  identifier : String
  original_message : String
  deriving DecidableEq, Repr

/-- What escapes from the reply handling of send_message: either the
structured TransplantError, or an ordinary Python exception raised by the
trace assembly itself (an out-of-range source-line lookup). -/
inductive MasterRaise where
  | transplant (e : TransplantErrorData)
  | pyerr (e : PyErr)
  deriving DecidableEq, Repr

/-- The local filesystem, as the trace assembly sees it: for a path,
either none (os.path.exists is false) or the lines that
open(path).readlines() yields. -/
def FsOracle : Type := String → Option (List String)

/-- Python str.strip(' '): remove leading and trailing space characters
(only spaces; the newline of a readlines line survives). -/
def stripSpaces (s : String) : String :=
  ⟨(s.data.dropWhile (· = ' ')).reverse.dropWhile (· = ' ') |>.reverse⟩

/-- Reading a Python list element by possibly negative index, raising
IndexError when out of range; used for readlines()[int(line) - 1]. -/
def pyListGet {β : Type} (l : List β) (i : Int) : Except PyErr β :=
  match pyIdx l.length i with
  | some k =>
    match l[k]? with
    | some x => .ok x
    | none => .error ⟨"IndexError", "list index out of range"⟩
  | none => .error ⟨"IndexError", "list index out of range"⟩

/-- Python str.endswith, as a suffix test on the character list (the
built-in String.endsWith is not used because its byte-offset loop does not
reduce in the kernel). -/
def pyEndsWith (s post : String) : Bool := post.data.isSuffixOf s.data

/-- The str() rendering of the file field in the trace line ("None" for a
null file, as Python's format would print it). -/
def fileStr (o : Option String) : String :=
  match o with
  | some p => p
  | none => "None"

/-- One line of the assembled trace for one frame (transplant_master.py
lines 170-172): the File/line/in header, followed by the literal source line
when the frame names an existing local file ending in .m.  The source-line
lookup can itself raise IndexError. -/
def frameLine (fsO : FsOracle) (f : Frame) : Except PyErr String :=
  let base := "  File \"" ++ fileStr f.file ++ "\", line " ++ toString f.line ++
    ", in " ++ f.name ++ "\n"
  match f.file with
  | none => .ok base
  | some p =>
    match fsO p with
    | none => .ok base
    | some lines =>
      if pyEndsWith p ".m" then do
        let ln ← pyListGet lines (f.line - 1)
        .ok (base ++ "    " ++ stripSpaces ln)
      else .ok base

/-- The concatenated per-frame lines of the trace, innermost frame last in
the list order given (the caller reverses the stack first, as the source's
for-loop over reversed(stack) does). -/
def traceLines (fsO : FsOracle) : List Frame → Except PyErr String
  | [] => .ok ""
  | f :: fs => do
    let l ← frameLine fsO f
    let rest ← traceLines fsO fs
    .ok (l ++ rest)

/-- The reply handling of send_message after decoding (transplant_master.py
lines 164-175): an error reply has its stack normalized, a trace assembled,
and a TransplantError raised carrying the composed message, the frame list,
the identifier, and the original message; any other reply is returned. -/
def handleResponse (fsO : FsOracle) (r : DecResponse) :
    Except MasterRaise DecResponse :=
  if r.type_ = "error" then
    let stackL := normStack r.stack
    match traceLines fsO stackL.reverse with
    | .ok t =>
      .error (.transplant
        ⟨r.message ++ " (" ++ r.identifier ++ ")\n" ++
           "Traceback (most recent call last):\n" ++ t,
         stackL, r.identifier, r.message⟩)
    | .error e => .error (.pyerr e)
  else .ok r

/-- Decidable safety of the source-line lookup for one frame: the lookup
does not raise exactly when any existing .m file named by the frame has the
line number in (Python index) range. -/
def frameSafe (fsO : FsOracle) (f : Frame) : Bool :=
  match f.file with
  | none => true
  | some p =>
    match fsO p with
    | none => true
    | some lines =>
      if pyEndsWith p ".m" then (pyIdx lines.length (f.line - 1)).isSome
      else true

/-- Safety of the whole trace assembly for a frame list. -/
def traceSafe (fsO : FsOracle) (fs : List Frame) : Bool :=
  fs.all (frameSafe fsO)

/-- A wire number: JSON/msgpack numbers arriving in a shape field are either
integers or floats; Matlab shapes arrive as floats.  Floats are modelled as
rationals (every dimension size a float can carry integrally is one). -/
inductive PyNum where
  | int (n : Int)
  | float (q : ℚ)
  deriving DecidableEq, Repr

/-- Python's int() on a number: the identity on integers, truncation toward
zero on floats. -/
def pyInt (x : PyNum) : Int :=
  match x with
  | .int n => n
  | .float q => q.num.tdiv q.den

/-- The numpy element types this codec transports, by dtype name. -/
inductive NpDtype where
  | bool_ | int8 | int16 | int32 | int64
  | uint8 | uint16 | uint32 | uint64
  | float32 | float64 | complex64 | complex128
  deriving DecidableEq, Repr

/-- The dtype.name string, as placed in the wire value. -/
def NpDtype.name : NpDtype → String
  | .bool_ => "bool" | .int8 => "int8" | .int16 => "int16"
  | .int32 => "int32" | .int64 => "int64"
  | .uint8 => "uint8" | .uint16 => "uint16" | .uint32 => "uint32"
  | .uint64 => "uint64"
  | .float32 => "float32" | .float64 => "float64"
  | .complex64 => "complex64" | .complex128 => "complex128"

/-- The element size in bytes of each dtype. -/
def NpDtype.itemsize : NpDtype → Nat
  | .bool_ => 1 | .int8 => 1 | .int16 => 2 | .int32 => 4 | .int64 => 8
  | .uint8 => 1 | .uint16 => 2 | .uint32 => 4 | .uint64 => 8
  | .float32 => 4 | .float64 => 8 | .complex64 => 8 | .complex128 => 16

/-- Recovering a dtype from its wire name (what np.fromstring and
np.frombuffer do with the transmitted dtype string). -/
def parseDtype (s : String) : Option NpDtype :=
  if s = "bool" then some .bool_
  else if s = "int8" then some .int8
  else if s = "int16" then some .int16
  else if s = "int32" then some .int32
  else if s = "int64" then some .int64
  else if s = "uint8" then some .uint8
  else if s = "uint16" then some .uint16
  else if s = "uint32" then some .uint32
  else if s = "uint64" then some .uint64
  else if s = "float32" then some .float32
  else if s = "float64" then some .float64
  else if s = "complex64" then some .complex64
  else if s = "complex128" then some .complex128
  else none

/-- The base64 alphabet, index to character. -/
def b64Alphabet : List Char :=
  ['A','B','C','D','E','F','G','H','I','J','K','L','M','N','O','P',
   'Q','R','S','T','U','V','W','X','Y','Z',
   'a','b','c','d','e','f','g','h','i','j','k','l','m','n','o','p',
   'q','r','s','t','u','v','w','x','y','z',
   '0','1','2','3','4','5','6','7','8','9','+','/']

/-- The character for a six-bit group. -/
def b64Char (n : Nat) : Char := b64Alphabet.getD n 'A'

/-- The six-bit value of an alphabet character, none for a non-alphabet
character. -/
def b64CharVal (c : Char) : Option Nat := b64Alphabet.indexOf? c

/-- Standard base64 of a byte list (bytes as naturals below 256), as
base64.b64encode produces it: three bytes to four characters, with '='
padding for a one- or two-byte tail. -/
def b64EncodeChunks : List Nat → List Char
  | [] => []
  | [a] => [b64Char (a / 4), b64Char (a % 4 * 16), '=', '=']
  | [a, b] => [b64Char (a / 4), b64Char (a % 4 * 16 + b / 16), b64Char (b % 16 * 4), '=']
  | a :: b :: c :: rest =>
    b64Char (a / 4) :: b64Char (a % 4 * 16 + b / 16) ::
      b64Char (b % 16 * 4 + c / 64) :: b64Char (c % 64) :: b64EncodeChunks rest

/-- Standard base64 decoding (base64.b64decode): four characters to three
bytes, with the two padded tail forms; anything malformed raises. -/
def b64DecodeChunks : List Char → Except String (List Nat)
  | [] => .ok []
  | c1 :: c2 :: c3 :: c4 :: rest =>
    match b64CharVal c1, b64CharVal c2 with
    | some v1, some v2 =>
      if c3 = '=' then
        if c4 = '=' ∧ rest = [] then .ok [v1 * 4 + v2 / 16]
        else .error "Invalid base64-encoded string"
      else
        match b64CharVal c3 with
        | some v3 =>
          if c4 = '=' then
            if rest = [] then .ok [v1 * 4 + v2 / 16, v2 % 16 * 16 + v3 / 4]
            else .error "Invalid base64-encoded string"
          else
            match b64CharVal c4 with
            | some v4 => do
              let tail ← b64DecodeChunks rest
              .ok ((v1 * 4 + v2 / 16) :: (v2 % 16 * 16 + v3 / 4) :: (v3 % 4 * 64 + v4) :: tail)
            | none => .error "Invalid base64-encoded string"
        | none => .error "Invalid base64-encoded string"
    | _, _ => .error "Invalid base64-encoded string"
  | _ => .error "Invalid base64-encoded string"

/-- Text transport of a byte buffer: base64.b64encode(...).decode(). -/
def b64EncodeStr (bs : List Nat) : String := ⟨b64EncodeChunks bs⟩

/-- Text transport decoding: base64.b64decode of a str. -/
def b64DecodeStr (s : String) : Except String (List Nat) := b64DecodeChunks s.data

/-- The payload slot of a matrix wire value: base64 text in the json format,
a raw byte buffer in the msgpack format. -/
inductive MatPayload where
  | text (s : String)
  | bin (bs : List Nat)
  deriving DecidableEq, Repr

/-- The two wire formats of the master (constructor argument msgformat). -/
inductive MsgFormat where
  | msgpack
  | json
  deriving DecidableEq, Repr

/-- The wire value a dense array travels as, minus the constant
"__matrix__" tag: dtype name, shape, payload. -/
structure MatrixWire where
  dtypeName : String
  shapeW : List PyNum
  payload : MatPayload
  deriving DecidableEq, Repr

/-- A numpy dense array, at byte level: element type, shape, and the bytes
that tostring()/tobytes() yields.  A well-formed array has exactly
prod(shape) * itemsize bytes, each below 256. -/
structure NdArray where
  dtype : NpDtype
  shape : List Nat
  data : List Nat
  deriving DecidableEq, Repr

/-- Well-formedness of a byte-level array: the buffer length matches the
shape and the entries are bytes. -/
def NdArray.wf (a : NdArray) : Prop :=
  a.data.length = a.shape.prod * a.dtype.itemsize ∧ ∀ b ∈ a.data, b < 256

instance (a : NdArray) : Decidable a.wf := by
  unfold NdArray.wf; infer_instance

/-- The master's encode_matrix (transplant_master.py lines 246-264): dtype
name, shape, and the buffer, base64-encoded in the json format and raw in
the msgpack format. -/
def encode_matrix (fmt : MsgFormat) (a : NdArray) : MatrixWire :=
  { dtypeName := a.dtype.name,
    shapeW := a.shape.map (fun (n : Nat) => PyNum.int (n : Int)),
    payload :=
      match fmt with
      | .json => .text (b64EncodeStr a.data)
      | .msgpack => .bin a.data }

/-- Recovery of the byte buffer from the payload slot: a str payload is
base64-decoded (the isinstance(data, str) test of decode_matrix), a raw
buffer is taken as is. -/
def payloadBytes (p : MatPayload) : Except String (List Nat) :=
  match p with
  | .text s => b64DecodeStr s
  | .bin bs => Except.ok bs

/-- The master's decode_matrix (transplant_master.py lines 266-285): decode
the buffer (base64 for a str payload, raw otherwise), recover the dtype from
its name, coerce the dimension sizes to integers, and reshape.  The
np.reshape convention of a -1 dimension standing for an inferred size is not
exercised by these wire values and not modelled; a failed dtype lookup,
a buffer that is not a whole number of elements, or a size mismatch
raises. -/
def decode_matrix (w : MatrixWire) : Except String NdArray := do
  let dtype ←
    match parseDtype w.dtypeName with
    | some d => Except.ok d
    | none => Except.error ("data type \"" ++ w.dtypeName ++ "\" not understood")
  let bytes ← payloadBytes w.payload
  if bytes.length % dtype.itemsize = 0 then
    let dims := w.shapeW.map pyInt
    if dims.all (fun d => 0 ≤ d) ∧
        (dims.map Int.toNat).prod = bytes.length / dtype.itemsize then
      .ok ⟨dtype, (dims.map Int.toNat), bytes⟩
    else .error "cannot reshape array"
  else .error "buffer size must be a multiple of element size"

/-- A scipy COO sparse matrix at the logical level: shape and a list of
(row, column) -> value placements.  Duplicate placements are implicitly
summed (scipy coo_matrix semantics); values are modelled as rationals. -/
structure Coo where
  rows : Nat
  cols : Nat
  entries : List ((Nat × Nat) × ℚ)
  deriving DecidableEq, Repr

/-- The value of a COO matrix at one coordinate: the sum of all placements
there. -/
def cooValueAt (s : Coo) (i j : Nat) : ℚ :=
  ((s.entries.filter (fun e => e.1 = (i, j))).map (fun e => e.2)).sum

/-- Well-formedness: every placement is inside the shape. -/
def Coo.wf (s : Coo) : Prop :=
  ∀ e ∈ s.entries, e.1.1 < s.rows ∧ e.1.2 < s.cols

instance (s : Coo) : Decidable s.wf := by
  unfold Coo.wf; infer_instance

/-- The canonical triplets scipy.sparse.find(data) yields: one entry per
distinct coordinate carrying a nonzero summed value.  find returns its
triplets in a definite internal order; only the set of (coordinate, value)
pairs matters here and the first-occurrence order stands in for it. -/
def cooFind (s : Coo) : List ((Nat × Nat) × ℚ) :=
  ((s.entries.map (fun e => e.1)).dedup).filterMap
    (fun c => if cooValueAt s c.1 c.2 = 0 then none else some (c, cooValueAt s c.1 c.2))

/-- The wire value of a sparse matrix, minus the constant "__sparse__" tag
(transplant_master.py lines 287-302): the shape and the three find vectors,
each transported as a dense-array wire value.  The dense-array transport of
the three vectors is proved faithful separately (the dense codec theorems);
here each vector slot carries the decoded 1-D content, and none models a
null slot, which a remote uses for an empty matrix. -/
structure SparseWire where
  shapeW : List PyNum
  rowW : Option (List Nat)
  colW : Option (List Nat)
  valW : Option (List ℚ)
  deriving DecidableEq, Repr

/-- The master's encode_sparse_matrix (transplant_master.py lines 287-302):
shape plus the three vectors of scipy.sparse.find. -/
def encode_sparse_matrix (s : Coo) : SparseWire :=
  { shapeW := [PyNum.int s.rows, PyNum.int s.cols],
    rowW := some ((cooFind s).map (fun e => e.1.1)),
    colW := some ((cooFind s).map (fun e => e.1.2)),
    valW := some ((cooFind s).map (fun e => e.2)) }

/-- The per-vector step of decode_sparse_matrix: ravel of the decoded dense
array for a present slot (the identity on the 1-D vectors that travel
here), or the empty list for a null slot. -/
def ravelOrEmpty {β : Type} (o : Option (List β)) : List β :=
  match o with
  | some v => v
  | none => []

/-- The master's decode_sparse_matrix (transplant_master.py lines 304-324):
ravel each vector or substitute [] for a null one, coerce the shape to
integers, and construct the COO matrix.  The scipy.sparse.coo_matrix
constructor validates what the model checks: a well-formed 2-entry shape,
equal vector lengths, and in-range indices. -/
def decode_sparse_matrix (w : SparseWire) : Except String Coo :=
  let row := ravelOrEmpty w.rowW
  let col := ravelOrEmpty w.colW
  let val := ravelOrEmpty w.valW
  match w.shapeW.map pyInt with
  | [ri, ci] =>
    if 0 ≤ ri ∧ 0 ≤ ci then
      if row.length = col.length ∧ col.length = val.length then
        let entries := (row.zip col).zip val
        if entries.all (fun e => e.1.1 < ri.toNat ∧ e.1.2 < ci.toNat) then
          .ok ⟨ri.toNat, ci.toNat, entries⟩
        else .error "row index exceeds matrix dimensions"
      else .error "row, column, and data array must all be the same length"
    else .error "negative dimensions are not allowed"
  | _ => .error "shape must be a 2-tuple"

/-- One observable action of the master's call path on its channel and
child process. -/
inductive ChAction where
  | send
  | sigint
  | recv
  deriving DecidableEq, Repr

/-- A reply as the call path inspects it: the type tag and the value slot. -/
structure MReply (ρ : Type) where
  type_ : String
  value : ρ

/-- The outcome of Matlab._call: a returned value, an implicit None (reply
was not a value reply), or a re-raised KeyboardInterrupt. -/
inductive MCallOutcome (ρ : Type) where
  | value (v : ρ)
  | noValue
  | interrupted

/-- The channel trace and outcome of one call. -/
structure MCallRun (ρ : Type) where
  events : List ChAction
  outcome : MCallOutcome ρ

/-- The master's Matlab._call (transplant_master.py lines 579-597), with an
explicit flag for an asynchronous KeyboardInterrupt arriving while
send_message is blocked on the reply (after the request went out).  The
normal path sends and receives one reply; the interrupted path catches the
interrupt after the send, forwards SIGINT to the child process, performs
exactly one further receive to drain the outstanding reply (both message
formats receive exactly once), and re-raises. -/
def matlabCallRun {ρ : Type} (interrupted : Bool) (reply : MReply ρ) : MCallRun ρ :=
  if interrupted then
    ⟨[.send] ++ [.sigint, .recv], .interrupted⟩
  else
    ⟨[.send, .recv],
      if reply.type_ = "value" then .value reply.value else .noValue⟩

/-- The child process as the master sees it: the actual exit status (none
while running), and whether the master has already observed that status
through poll() or wait() — the Popen.returncode attribute is only set by
those calls. -/
structure Proc where
  exitCode : Option Int
  observed : Bool
  deriving DecidableEq, Repr

/-- The Popen.returncode attribute. -/
def returncodeAttr (p : Proc) : Option Int :=
  if p.observed then p.exitCode else none

/-- Observable teardown actions. -/
inductive TAction where
  | sentDie
  | waitedExit
  | closedSocket
  | termedCtx
  deriving DecidableEq, Repr

/-- TransplantMaster.exit (transplant_master.py lines 136-141): return at
once when returncode is already set; otherwise send the die request — whose
transmission starts with _wait_socket, which polls the process and raises
RuntimeError("Process died unexpectedly") if it has exited — and wait for
process exit.  On the live path the remote acknowledges and exits and
wait() reaps the status (the acknowledgement is taken to arrive before the
exit is observed). -/
def masterExit (p : Proc) : Proc × List TAction × Option String :=
  if (returncodeAttr p).isSome then
    (p, [], none)
  else
    match p.exitCode with
    | some _ => ({ p with observed := true }, [], some "Process died unexpectedly")
    | none => (⟨some 0, true⟩, [.sentDie, .waitedExit], none)

/-- Matlab.exit (transplant_master.py lines 573-577): the base teardown,
then socket.close() and context.term(); a raise from the base teardown
propagates before the socket is closed. -/
def matlabExit (p : Proc) : Proc × List TAction × Option String :=
  match masterExit p with
  | (p1, acts, none) => (p1, acts ++ [.closedSocket, .termedCtx], none)
  | (p1, acts, some e) => (p1, acts, some e)

/-- The alphabet inverts its own indexing on the six-bit range. -/
theorem b64CharVal_b64Char : ∀ n < 64, b64CharVal (b64Char n) = some n := by
  decide

/-- No alphabet character is the padding character. -/
theorem b64Char_ne_pad : ∀ n < 64, b64Char n ≠ '=' := by
  decide

/-- Division discards a packed low part smaller than the base. -/
theorem packDiv {m : Nat} (x y : Nat) (hm : 0 < m) (hy : y < m) :
    (x * m + y) / m = x := by
  rw [Nat.mul_comm, Nat.mul_add_div hm, Nat.div_eq_of_lt hy, Nat.add_zero]

/-- Remainder recovers a packed low part smaller than the base. -/
theorem packMod {m : Nat} (x y : Nat) (hy : y < m) : (x * m + y) % m = y := by
  rw [Nat.mul_comm, Nat.mul_add_mod, Nat.mod_eq_of_lt hy]

/-- Base64 decoding inverts base64 encoding on byte lists. -/
theorem b64_roundtrip :
    ∀ bs : List Nat, (∀ b ∈ bs, b < 256) →
      b64DecodeChunks (b64EncodeChunks bs) = .ok bs
  | [] => fun _ => rfl
  | [a] => by
    intro h
    have ha : a < 256 := h a (by simp)
    have h1 : a / 4 < 64 := by omega
    have h2 : a % 4 * 16 < 64 := by omega
    have k1 : a % 4 * 16 / 16 = a % 4 := by simp
    simp only [b64EncodeChunks, b64DecodeChunks,
      b64CharVal_b64Char _ h1, b64CharVal_b64Char _ h2]
    simp only [and_self, if_true, reduceIte, k1]
    have : a / 4 * 4 + a % 4 = a := by omega
    rw [this]
  | [a, b] => by
    intro h
    have ha : a < 256 := h a (by simp)
    have hb : b < 256 := h b (by simp)
    have h1 : a / 4 < 64 := by omega
    have h2 : a % 4 * 16 + b / 16 < 64 := by omega
    have h3 : b % 16 * 4 < 64 := by omega
    have k1 : (a % 4 * 16 + b / 16) / 16 = a % 4 := packDiv _ _ (by omega) (by omega)
    have k2 : (a % 4 * 16 + b / 16) % 16 = b / 16 := packMod _ _ (by omega)
    have k3 : b % 16 * 4 / 4 = b % 16 := by simp
    simp only [b64EncodeChunks, b64DecodeChunks,
      b64CharVal_b64Char _ h1, b64CharVal_b64Char _ h2, b64CharVal_b64Char _ h3,
      if_neg (b64Char_ne_pad _ h3), and_self, if_true, reduceIte, k1, k2, k3]
    have e1 : a / 4 * 4 + a % 4 = a := by omega
    have e2 : b / 16 * 16 + b % 16 = b := by omega
    rw [e1, e2]
  | a :: b :: c :: rest => by
    intro h
    have ha : a < 256 := h a (by simp)
    have hb : b < 256 := h b (by simp)
    have hc : c < 256 := h c (by simp)
    have h1 : a / 4 < 64 := by omega
    have h2 : a % 4 * 16 + b / 16 < 64 := by omega
    have h3 : b % 16 * 4 + c / 64 < 64 := by omega
    have h4 : c % 64 < 64 := by omega
    have ih := b64_roundtrip rest (fun x hx => h x (by simp [hx]))
    have k1 : (a % 4 * 16 + b / 16) / 16 = a % 4 := packDiv _ _ (by omega) (by omega)
    have k2 : (a % 4 * 16 + b / 16) % 16 = b / 16 := packMod _ _ (by omega)
    have k3 : (b % 16 * 4 + c / 64) / 4 = b % 16 := packDiv _ _ (by omega) (by omega)
    have k4 : (b % 16 * 4 + c / 64) % 4 = c / 64 := packMod _ _ (by omega)
    simp only [b64EncodeChunks, b64DecodeChunks,
      b64CharVal_b64Char _ h1, b64CharVal_b64Char _ h2, b64CharVal_b64Char _ h3,
      b64CharVal_b64Char _ h4,
      if_neg (b64Char_ne_pad _ h3), if_neg (b64Char_ne_pad _ h4),
      ih, k1, k2, k3, k4]
    have e1 : a / 4 * 4 + a % 4 = a := by omega
    have e2 : b / 16 * 16 + b % 16 = b := by omega
    have e3 : c / 64 * 64 + c % 64 = c := by omega
    rw [e1, e2, e3]
    rfl

/-- Every dtype is recovered from its own wire name. -/
theorem parseDtype_name (d : NpDtype) : parseDtype d.name = some d := by
  cases d <;> rfl

/-- Every dtype has a positive element size. -/
theorem itemsize_pos (d : NpDtype) : 0 < d.itemsize := by
  cases d <;> decide

/-- Coercion of an integer wire number is the identity. -/
theorem pyInt_int (n : Int) : pyInt (.int n) = n := rfl

/-- Coercion of an integral float wire number recovers the integer
(int() truncates, and these floats are whole). -/
theorem pyInt_float_natCast (n : Nat) : pyInt (.float (n : ℚ)) = (n : Int) := by
  simp [pyInt]

/-- Decoding succeeds and restores the array whenever the wire value carries
the array's dtype name, a payload that decodes to its buffer, and dimension
sizes that coerce to its shape. -/
theorem decode_matrix_of_parts (a : NdArray) (hwf : a.wf) (w : MatrixWire)
    (hd : w.dtypeName = a.dtype.name)
    (hb : payloadBytes w.payload = Except.ok a.data)
    (hs : w.shapeW.map pyInt = a.shape.map (fun (n : Nat) => (n : Int))) :
    decode_matrix w = .ok a := by
  have hlen : a.data.length = a.shape.prod * a.dtype.itemsize := hwf.1
  have c1 : a.data.length % a.dtype.itemsize = 0 := by
    rw [hlen]; exact Nat.mul_mod_left _ _
  have hback : (a.shape.map (fun (n : Nat) => (n : Int))).map Int.toNat = a.shape := by
    rw [List.map_map]
    have hcomp : (Int.toNat ∘ fun (n : Nat) => (n : Int)) = id := by
      funext n
      simp
    rw [hcomp, List.map_id]
  have c2 : ((a.shape.map (fun (n : Nat) => (n : Int))).all (fun d => 0 ≤ d)) = true := by
    simp only [List.all_eq_true, List.mem_map, decide_eq_true_eq]
    rintro x ⟨n, hn, rfl⟩
    exact Int.natCast_nonneg n
  have c3 : a.shape.prod = a.data.length / a.dtype.itemsize := by
    rw [hlen, Nat.mul_div_cancel _ (itemsize_pos _)]
  simp only [decode_matrix, hd, parseDtype_name, hb, Except.instMonad, Except.bind, hs]
  rw [if_pos c1]
  rw [if_pos ?side]
  case side =>
    refine ⟨by rw [c2], ?_⟩
    rw [hback, ← c3]
  rw [hback]

/-- C4: for every well-formed numpy dense array, decoding the encoding
restores the exact element type, shape and element bytes, in both the text
(base64) and the binary (raw bytes) wire format; and decoding still
succeeds, with the same result, when the transmitted dimension sizes are
floats, because they are coerced to integers before reshaping. -/
theorem C4_matrix_roundtrip (fmt : MsgFormat) (a : NdArray) (hwf : a.wf) :
    decode_matrix (encode_matrix fmt a) = .ok a ∧
    decode_matrix { encode_matrix fmt a with
                    shapeW := a.shape.map (fun (n : Nat) => PyNum.float (n : ℚ)) } =
      .ok a := by
  have hb : payloadBytes (encode_matrix fmt a).payload = Except.ok a.data := by
    cases fmt with
    | msgpack => rfl
    | json =>
      show b64DecodeStr (b64EncodeStr a.data) = Except.ok a.data
      exact b64_roundtrip a.data hwf.2
  constructor
  · refine decode_matrix_of_parts a hwf _ rfl hb ?_
    simp only [encode_matrix]
    rw [List.map_map]
    rfl
  · refine decode_matrix_of_parts a hwf _ rfl hb ?_
    simp only [encode_matrix]
    rw [List.map_map]
    apply List.map_congr_left
    intro n hn
    exact pyInt_float_natCast n

/-- Concrete instance of C4: a 2-by-2 int32 array survives both wire
formats, also with float dimension sizes. -/
theorem C4_matrix_roundtrip_witness :
    (decode_matrix (encode_matrix .json
        ⟨.int32, [2, 2], [1,0,0,0, 2,0,0,0, 3,0,0,0, 4,0,0,0]⟩) =
      .ok ⟨.int32, [2, 2], [1,0,0,0, 2,0,0,0, 3,0,0,0, 4,0,0,0]⟩) ∧
    (decode_matrix (encode_matrix .msgpack
        ⟨.int32, [2, 2], [1,0,0,0, 2,0,0,0, 3,0,0,0, 4,0,0,0]⟩) =
      .ok ⟨.int32, [2, 2], [1,0,0,0, 2,0,0,0, 3,0,0,0, 4,0,0,0]⟩) := by
  refine ⟨(C4_matrix_roundtrip .json _ ?w1).1, (C4_matrix_roundtrip .msgpack _ ?w2).1⟩
  case w1 => decide
  case w2 => decide

/-- A resolved Python index is in range. -/
theorem pyIdx_lt {len : Nat} {i : Int} {k : Nat} (h : pyIdx len i = some k) :
    k < len := by
  unfold pyIdx at h
  split at h
  · cases h
    omega
  · split at h
    · cases h
      omega
    · cases h

/-- A computation known to be ok yields its value. -/
theorem exists_ok_of_isOk {ε β : Type} {x : Except ε β} (h : x.isOk = true) :
    ∃ b, x = .ok b := by
  cases x with
  | ok b => exact ⟨b, rfl⟩
  | error e => simp [Except.isOk, Except.toBool] at h

/-- A frame that passes the safety check produces its trace line. -/
theorem frameSafe_ok (fsO : FsOracle) (f : Frame) (h : frameSafe fsO f = true) :
    ∃ l, frameLine fsO f = .ok l := by
  refine exists_ok_of_isOk ?_
  cases hf : f.file with
  | none => simp only [frameLine, hf, Except.isOk, Except.toBool]
  | some p =>
    cases hfs : fsO p with
    | none => simp only [frameLine, hf, hfs, Except.isOk, Except.toBool]
    | some lines =>
      simp only [frameSafe, hf, hfs] at h
      cases hm : pyEndsWith p ".m" with
      | false =>
        simp only [frameLine, hf, hfs, hm, Bool.false_eq_true, reduceIte,
          Except.isOk, Except.toBool]
      | true =>
        rw [hm, if_pos rfl] at h
        obtain ⟨k, hk⟩ := Option.isSome_iff_exists.mp h
        have hlt := pyIdx_lt hk
        simp only [frameLine, hf, hfs, hm, if_true, pyListGet, hk,
          List.getElem?_eq_getElem hlt]
        rfl

/-- A frame list that passes the safety check assembles its trace lines. -/
theorem traceSafe_ok (fsO : FsOracle) :
    ∀ fs : List Frame, traceSafe fsO fs = true →
      ∃ t, traceLines fsO fs = .ok t
  | [] => fun _ => ⟨"", rfl⟩
  | f :: fs => by
    intro h
    rw [traceSafe, List.all_cons, Bool.and_eq_true] at h
    obtain ⟨l, hl⟩ := frameSafe_ok fsO f h.1
    obtain ⟨t, ht⟩ := traceSafe_ok fsO fs h.2
    refine ⟨l ++ t, ?_⟩
    simp only [traceLines, hl, ht]
    rfl

/-- C3 (amended): the reply handling of send_message raises the structured
TransplantError exactly for replies of type error, carrying the composed
message, the normalized frame list, the identifier and the original
unformatted message, and returns every other decoded reply unchanged —
provided the trace assembly itself does not raise, which it can do (see the
counterexample) when a frame names an existing local .m file with an
out-of-range line number. -/
theorem C3_error_raising (fsO : FsOracle) (r : DecResponse) :
    (r.type_ = "error" → traceSafe fsO (normStack r.stack) = true →
      ∃ t, traceLines fsO (normStack r.stack).reverse = .ok t ∧
        handleResponse fsO r = .error (.transplant
          ⟨r.message ++ " (" ++ r.identifier ++ ")\n" ++
             "Traceback (most recent call last):\n" ++ t,
           normStack r.stack, r.identifier, r.message⟩)) ∧
    (r.type_ ≠ "error" → handleResponse fsO r = .ok r) ∧
    (∀ e, handleResponse fsO r = .error (.transplant e) → r.type_ = "error") := by
  refine ⟨?_, ?_, ?_⟩
  · intro ht hsafe
    have hrev : traceSafe fsO (normStack r.stack).reverse = true := by
      rw [traceSafe, List.all_reverse]
      exact hsafe
    obtain ⟨t, htl⟩ := traceSafe_ok fsO _ hrev
    refine ⟨t, htl, ?_⟩
    simp only [handleResponse, ht, if_true, htl, reduceIte]
  · intro ht
    simp only [handleResponse, ht, reduceIte]
  · intro e he
    by_contra hne
    simp only [handleResponse, hne, reduceIte] at he
    cases he

/-- A local filesystem holding one Matlab source file with a single line. -/
def fsShort : FsOracle := fun p => if p = "short.m" then some ["x\n"] else none

/-- An error reply whose single frame points into short.m at line 5, past
the end of the file. -/
def respBadLine : DecResponse :=
  ⟨"error", "boom", "SomeError", .slist [⟨some "short.m", 5, "foo"⟩]⟩

/-- C3 counterexample: a decoded reply of type error for which send_message
does not raise a TransplantError — the trace assembly reads
readlines()[int(line) - 1] on an existing local .m file and the line number
is out of range, so an IndexError escapes instead.  This falsifies the
claimed equivalence "raises a TransplantError if and only if the reply has
type error" at a concrete input. -/
theorem C3_counterexample :
    respBadLine.type_ = "error" ∧
    handleResponse fsShort respBadLine =
      .error (.pyerr ⟨"IndexError", "list index out of range"⟩) := by
  constructor
  · rfl
  · decide

/-- A value reply, and an error reply whose single listed frame names a file
absent from the local filesystem. -/
def respValueW : DecResponse := ⟨"value", "m", "i", .slist []⟩

/-- An error reply used to instantiate the amended C3. -/
def respErrW : DecResponse :=
  ⟨"error", "boom", "X:undefinedVariable", .slist [⟨some "f.m", 3, "bar"⟩]⟩

/-- Concrete instance of the amended C3: the value reply is returned
unchanged, and the error reply raises the structured error. -/
theorem C3_error_raising_witness :
    (handleResponse fsShort respValueW = .ok respValueW) ∧
    (∃ t, traceLines fsShort (normStack respErrW.stack).reverse = .ok t ∧
      handleResponse fsShort respErrW = .error (.transplant
        ⟨respErrW.message ++ " (" ++ respErrW.identifier ++ ")\n" ++
           "Traceback (most recent call last):\n" ++ t,
         normStack respErrW.stack, respErrW.identifier, respErrW.message⟩)) :=
  ⟨(C3_error_raising fsShort respValueW).2.1 (by decide),
   (C3_error_raising fsShort respErrW).1 rfl (by decide)⟩

/-- C8: when an error reply's stack is a single bare frame map, the reply
handling normalizes it to a one-element list before trace assembly, and the
raised error's stack attribute is that non-empty list. -/
theorem C8_single_frame_normalized (fsO : FsOracle) (r : DecResponse) (f : Frame)
    (htype : r.type_ = "error") (hstack : r.stack = .smap f)
    (hsafe : traceSafe fsO [f] = true) :
    ∃ e, handleResponse fsO r = .error (.transplant e) ∧
      e.stack = [f] ∧ e.stack ≠ [] := by
  have hn : normStack r.stack = [f] := by
    rw [hstack]
    rfl
  have hrev : traceSafe fsO [f].reverse = true := by
    rw [traceSafe, List.all_reverse]
    exact hsafe
  obtain ⟨t, htl⟩ := traceSafe_ok fsO _ hrev
  refine ⟨⟨r.message ++ " (" ++ r.identifier ++ ")\n" ++
            "Traceback (most recent call last):\n" ++ t,
          [f], r.identifier, r.message⟩, ?_, rfl, by simp⟩
  simp only [handleResponse, htype, if_true, hn, htl, reduceIte]

/-- An error reply whose stack is a bare single-frame map. -/
def respBareMap : DecResponse :=
  ⟨"error", "boom", "X:undefinedVariable", .smap ⟨some "f.m", 3, "bar"⟩⟩

/-- Concrete instance of C8: the bare map stack comes back as a one-element
frame list on the raised error. -/
theorem C8_single_frame_normalized_witness :
    ∃ e, handleResponse fsShort respBareMap = .error (.transplant e) ∧
      e.stack = [⟨some "f.m", 3, "bar"⟩] ∧ e.stack ≠ [] :=
  C8_single_frame_normalized fsShort respBareMap ⟨some "f.m", 3, "bar"⟩
    rfl rfl (by decide)

/-- C6: when the caller is interrupted while the call awaits its reply, the
call path forwards SIGINT to the child process, then performs exactly one
further receive to drain the outstanding reply, and only then re-raises the
interrupt; the trace carries one receive per send, so no unread reply is
left on the channel. -/
theorem C6_interrupt_drain {ρ : Type} (reply : MReply ρ) :
    (matlabCallRun true reply).events = [.send, .sigint, .recv] ∧
    (matlabCallRun true reply).outcome = MCallOutcome.interrupted ∧
    (matlabCallRun true reply).events.count ChAction.recv = 1 ∧
    (matlabCallRun true reply).events.count ChAction.recv =
      (matlabCallRun true reply).events.count ChAction.send := by
  have he : (matlabCallRun true reply).events = [.send, .sigint, .recv] := rfl
  refine ⟨rfl, rfl, ?_, ?_⟩ <;> rw [he] <;> decide

/-- C7 counterexample: the child process has exited on its own (exit status
1) and the master has not yet observed it (returncode still unset), so the
claim predicts that exit does not raise; but exit's guard consults the
stale returncode attribute, proceeds to send the die request, and the
transmission's process poll raises RuntimeError("Process died
unexpectedly"). -/
theorem C7_counterexample :
    matlabExit ⟨some 1, false⟩ =
      (⟨some 1, true⟩, [], some "Process died unexpectedly") := by
  decide

/-- C7 (amended): teardown never sends a second die request — a call with
returncode already observed returns at once (no raise, no die), and after a
completed teardown a second call only re-closes the transport; but when the
child exited on its own and its status was never observed, exit raises
RuntimeError("Process died unexpectedly") instead of returning quietly (it
still sends no die request). -/
theorem C7_exit_idempotent (p : Proc) :
    ((returncodeAttr p).isSome →
      matlabExit p = (p, [.closedSocket, .termedCtx], none)) ∧
    (p.exitCode.isSome → TAction.sentDie ∉ (matlabExit p).2.1) ∧
    (p.exitCode.isSome → p.observed = false →
      (matlabExit p).2.2 = some "Process died unexpectedly") ∧
    ((matlabExit ⟨none, false⟩).2.2 = none ∧
      (matlabExit ⟨none, false⟩).2.1.count TAction.sentDie = 1 ∧
      (matlabExit (matlabExit ⟨none, false⟩).1).2.2 = none ∧
      TAction.sentDie ∉ (matlabExit (matlabExit ⟨none, false⟩).1).2.1) := by
  refine ⟨?_, ?_, ?_, by decide⟩
  · intro h
    simp only [matlabExit, masterExit, h, if_true, reduceIte, List.nil_append]
  · intro h
    obtain ⟨c, hc⟩ := Option.isSome_iff_exists.mp h
    cases hobs : p.observed with
    | true =>
      have : (returncodeAttr p).isSome = true := by
        simp [returncodeAttr, hobs, hc]
      simp only [matlabExit, masterExit, this, if_true, reduceIte]
      decide
    | false =>
      have : (returncodeAttr p).isSome = false := by
        simp [returncodeAttr, hobs]
      simp only [matlabExit, masterExit, this, Bool.false_eq_true, reduceIte, hc]
      decide
  · intro h hobs
    obtain ⟨c, hc⟩ := Option.isSome_iff_exists.mp h
    have : (returncodeAttr p).isSome = false := by
      simp [returncodeAttr, hobs]
    simp only [matlabExit, masterExit, this, Bool.false_eq_true, reduceIte, hc]

/-- Concrete instance of the amended C7: a second exit after a completed
teardown re-closes the transport only, a self-exited unobserved child makes
exit raise, and an observed exit never re-sends die. -/
theorem C7_exit_idempotent_witness :
    (matlabExit ⟨some 0, true⟩ = (⟨some 0, true⟩, [.closedSocket, .termedCtx], none)) ∧
    (TAction.sentDie ∉ (matlabExit ⟨some 1, true⟩).2.1) ∧
    ((matlabExit ⟨some 1, false⟩).2.2 = some "Process died unexpectedly") :=
  ⟨(C7_exit_idempotent ⟨some 0, true⟩).1 (by decide),
   (C7_exit_idempotent ⟨some 1, true⟩).2.1 (by decide),
   (C7_exit_idempotent ⟨some 1, false⟩).2.2.1 (by decide) rfl⟩

/-- An in-range nonnegative index resolves to itself. -/
theorem pyIdx_inbounds {len : Nat} {i : Int} (h0 : 0 ≤ i) (hlt : i < (len : Int)) :
    pyIdx len i = some i.toNat := by
  simp only [pyIdx]
  rw [if_pos ⟨h0, hlt⟩]

/-- In-range list assignment succeeds. -/
theorem pySet_inbounds {α : Type} (l : List α) (i : Int) (a : α) (h0 : 0 ≤ i)
    (hlt : i < (l.length : Int)) : pySet l i a = .ok (l.set i.toNat a) := by
  simp only [pySet, pyIdx_inbounds h0 hlt]

/-- In-range list lookup returns the element. -/
theorem pyGet_inbounds {α : Type} (l : List α) (i : Int) (h0 : 0 ≤ i)
    (hlt : i < (l.length : Int)) {x : α} (hx : l[i.toNat]? = some x) :
    pyGet l i = .ok x := by
  simp only [pyGet, pyIdx_inbounds h0 hlt, hx]

/-- A del_proxy request with no name field. -/
def delProxyMsg {α : Type} (h : Int) : Msg α := ⟨"del_proxy", none, none, some h, none, none⟩

/-- A get request for a name. -/
def getMsg {α : Type} (nm : PyName α) : Msg α := ⟨"get", some nm, none, none, none, none⟩

/-- A set request for a name and value. -/
def setMsg {α : Type} (nm : PyName α) (v : α) : Msg α :=
  ⟨"set", some nm, some v, none, none, none⟩

/-- Builtins lookup as the get handler performs it: only a string name can
be found in dir(builtins). -/
def builtinsLookup {α : Type} (env : PyEnv α) (nm : PyName α) : Option α :=
  match nm with
  | .str s => env.builtins s
  | _ => none

/-- The effect of a del_proxy request whose slot assignment succeeds: the
slot is overwritten with None, the handle is appended to the free list, and
an ack goes out. -/
theorem messageLoopStep_del_proxy {α : Type} [DecidableEq α] (env : PyEnv α)
    (s : RemoteState α) (h : Int) {cache1 : List α}
    (hset : pySet s.object_cache h env.noneV = .ok cache1) :
    messageLoopStep env s (delProxyMsg h) =
      ⟨⟨cache1, s.empty_cache_indexes ++ [h], s.globals_⟩, [.ack], false⟩ := by
  simp only [messageLoopStep, messageCases, delProxyMsg, reqField, String.reduceEq,
    reduceIte, Except.instMonad, Except.bind, hset]

/-- The effect of a set request: the name is bound in globals and an ack
goes out. -/
theorem messageLoopStep_set {α : Type} [DecidableEq α] (env : PyEnv α)
    (s : RemoteState α) (nm : PyName α) (v : α) :
    messageLoopStep env s (setMsg nm v) =
      ⟨⟨s.object_cache, s.empty_cache_indexes, gset s.globals_ nm v⟩, [.ack], false⟩ := by
  simp only [messageLoopStep, messageCases, setMsg, reqField, String.reduceEq,
    reduceIte, Except.instMonad, Except.bind]

/-- The effect of a get request for a builtin name: the builtin value is
sent, whatever the globals hold. -/
theorem messageLoopStep_get_builtin {α : Type} [DecidableEq α] (env : PyEnv α)
    (s : RemoteState α) (str : String) {bv : α} (hb : env.builtins str = some bv) :
    messageLoopStep env s (getMsg (.str str)) = ⟨s, [.value bv], false⟩ := by
  simp only [messageLoopStep, messageCases, getMsg, reqField, String.reduceEq,
    reduceIte, Except.instMonad, Except.bind, hb]

/-- The effect of a get request when the name is neither a builtin nor a
global: a NameError error response. -/
theorem messageLoopStep_get_missing {α : Type} [DecidableEq α] (env : PyEnv α)
    (s : RemoteState α) (nm : PyName α) (hb : builtinsLookup env nm = none)
    (hg : glookup s.globals_ nm = none) :
    messageLoopStep env s (getMsg nm) =
      ⟨s, [.error "NameError"
            ("Undefined variable \"" ++ pyNameStr env nm ++ "\".")], false⟩ := by
  cases nm with
  | str str =>
    have hb1 : env.builtins str = none := hb
    simp only [messageLoopStep, messageCases, getMsg, reqField, String.reduceEq,
      reduceIte, Except.instMonad, Except.bind, hb1, hg, pyNameStr]
  | int n =>
    simp only [messageLoopStep, messageCases, getMsg, reqField, String.reduceEq,
      reduceIte, Except.instMonad, Except.bind, hg, pyNameStr]
  | obj a =>
    simp only [messageLoopStep, messageCases, getMsg, reqField, String.reduceEq,
      reduceIte, Except.instMonad, Except.bind, hg, pyNameStr]

/-- The effect of a get request for a global that is not a builtin: the
global value is sent. -/
theorem messageLoopStep_get_global {α : Type} [DecidableEq α] (env : PyEnv α)
    (s : RemoteState α) (nm : PyName α) {v : α} (hb : builtinsLookup env nm = none)
    (hg : glookup s.globals_ nm = some v) :
    messageLoopStep env s (getMsg nm) = ⟨s, [.value v], false⟩ := by
  cases nm with
  | str str =>
    have hb1 : env.builtins str = none := hb
    simp only [messageLoopStep, messageCases, getMsg, reqField, String.reduceEq,
      reduceIte, Except.instMonad, Except.bind, hb1, hg]
  | int n =>
    simp only [messageLoopStep, messageCases, getMsg, reqField, String.reduceEq,
      reduceIte, Except.instMonad, Except.bind, hg]
  | obj a =>
    simp only [messageLoopStep, messageCases, getMsg, reqField, String.reduceEq,
      reduceIte, Except.instMonad, Except.bind, hg]

/-- A small concrete Python environment over natural-number object
identities, for instantiating the remote-side theorems: 0 is None, and two
builtin names exist. -/
def env0 : PyEnv Nat :=
  { noneV := 0,
    builtins := fun nm => if nm = "print" then some 101 else
      if nm = "len" then some 102 else none,
    isCallable := fun _ => false,
    getAttr := fun _ _ => .error ⟨"AttributeError", "no attribute"⟩,
    setAttr := fun _ _ _ => .error ⟨"AttributeError", "no attribute"⟩,
    applyFn := fun _ _ _ => .ok 0,
    toStr := fun n => toString n }

/-- C1: the remote handles a double release by appending the handle to the
free list unconditionally, so after two del_proxy requests for handle 0 the
free list holds [0, 0] and two subsequent allocations (one encode_proxy,
one encode_function) both return index 0 for two different live objects
(20 and then 30), the second overwriting the first.  This run exhibits the
failing input of the claim. -/
theorem C1_double_release_collision :
    encodeProxy (⟨[], [], []⟩ : RemoteState Nat) 10 = .ok (0, ⟨[10], [], []⟩) ∧
    (messageLoopStep env0 ⟨[10], [], []⟩ (delProxyMsg 0)).state = ⟨[0], [0], []⟩ ∧
    (messageLoopStep env0 ⟨[0], [0], []⟩ (delProxyMsg 0)).state = ⟨[0], [0, 0], []⟩ ∧
    encodeProxy (⟨[0], [0, 0], []⟩ : RemoteState Nat) 20 = .ok (0, ⟨[20], [0], []⟩) ∧
    encodeFunction (⟨[20], [0], []⟩ : RemoteState Nat) 30 = .ok (0, ⟨[30], [], []⟩) ∧
    (20 : Nat) ≠ 30 := by
  decide

/-- C2 counterexample: a handle table with six live slots whose handles 5
and then 2 have been released has free list [5, 2]; the next allocation
reuses index 5 — the oldest released index — although the released index 2
is lower, so allocation does not reuse the lowest previously-released
index; and from that same state, allocate-release-allocate returns 5 and
then 2, two different indices, so the claimed law also fails on states
with a nonempty free list. -/
theorem C2_counterexample :
    (messageLoopStep env0 ⟨[10, 11, 12, 13, 14, 15], [], []⟩ (delProxyMsg 5)).state =
      ⟨[10, 11, 12, 13, 14, 0], [5], []⟩ ∧
    (messageLoopStep env0 ⟨[10, 11, 12, 13, 14, 0], [5], []⟩ (delProxyMsg 2)).state =
      ⟨[10, 11, 0, 13, 14, 0], [5, 2], []⟩ ∧
    encodeProxy (⟨[10, 11, 0, 13, 14, 0], [5, 2], []⟩ : RemoteState Nat) 99 =
      .ok (5, ⟨[10, 11, 0, 13, 14, 99], [2], []⟩) ∧
    ((2 : Int) ∈ ([5, 2] : List Int) ∧ (2 : Int) < 5) ∧
    (messageLoopStep env0 ⟨[10, 11, 0, 13, 14, 99], [2], []⟩ (delProxyMsg 5)).state =
      ⟨[10, 11, 0, 13, 14, 0], [2, 5], []⟩ ∧
    encodeProxy (⟨[10, 11, 0, 13, 14, 0], [2, 5], []⟩ : RemoteState Nat) 100 =
      .ok (2, ⟨[10, 11, 100, 13, 14, 0], [5], []⟩) ∧
    (2 : Int) ≠ 5 := by
  decide

/-- C2 (amended): allocation reuses the earliest-released free index (the
free list is first-in-first-out), not necessarily the lowest; consequently,
starting from any state whose free list is empty, allocate; release;
allocate returns the same index twice, and resolving that index afterwards
yields the newly allocated object. -/
theorem C2_fifo_reuse {α : Type} [DecidableEq α] (env : PyEnv α)
    (s : RemoteState α) (a b : α) :
    (∀ idx rest, s.empty_cache_indexes = idx :: rest → 0 ≤ idx →
      idx < (s.object_cache.length : Int) →
      encodeProxy s a = .ok (idx, ⟨s.object_cache.set idx.toNat a, rest, s.globals_⟩)) ∧
    (s.empty_cache_indexes = [] →
      ∃ s1 s2 s3,
        encodeProxy s a = .ok ((s.object_cache.length : Int), s1) ∧
        messageLoopStep env s1 (delProxyMsg (s.object_cache.length : Int)) =
          ⟨s2, [.ack], false⟩ ∧
        encodeProxy s2 b = .ok ((s.object_cache.length : Int), s3) ∧
        pyGet s3.object_cache (s.object_cache.length : Int) = .ok b) := by
  constructor
  · intro idx rest hfree h0 hlt
    simp only [encodeProxy, hfree, pySet_inbounds s.object_cache idx a h0 hlt,
      Except.instMonad, Except.bind]
  · intro hfree
    set n := s.object_cache.length with hn
    refine ⟨⟨s.object_cache ++ [a], [], s.globals_⟩,
            ⟨(s.object_cache ++ [a]).set n env.noneV, [(n : Int)], s.globals_⟩,
            ⟨((s.object_cache ++ [a]).set n env.noneV).set n b, [], s.globals_⟩,
            ?_, ?_, ?_, ?_⟩
    · simp only [encodeProxy, hfree]
    · have hlen : ((s.object_cache ++ [a]).length : Int) = (n : Int) + 1 := by
        simp [List.length_append]
      have hset := pySet_inbounds (s.object_cache ++ [a]) (n : Int) env.noneV
        (by positivity) (by rw [hlen]; omega)
      rw [Int.toNat_natCast] at hset
      rw [messageLoopStep_del_proxy env _ _ hset]
      simp
    · have hlen2 : (((s.object_cache ++ [a]).set n env.noneV).length : Int) =
          (n : Int) + 1 := by
        simp [List.length_set, List.length_append]
      simp only [encodeProxy]
      have hset2 := pySet_inbounds ((s.object_cache ++ [a]).set n env.noneV) (n : Int) b
        (by positivity) (by rw [hlen2]; omega)
      rw [Int.toNat_natCast] at hset2
      simp only [hset2, Except.instMonad, Except.bind]
    · have hlen3 : ((((s.object_cache ++ [a]).set n env.noneV).set n b).length : Int) =
          (n : Int) + 1 := by
        simp [List.length_set, List.length_append]
      have hlt3 : n < ((s.object_cache ++ [a]).set n env.noneV).length := by
        simp [List.length_set, List.length_append]
      refine pyGet_inbounds _ _ (by positivity) (by rw [hlen3]; omega) ?_
      rw [Int.toNat_natCast]
      show ((((s.object_cache ++ [a]).set n env.noneV).set n b))[n]? = some b
      rw [List.getElem?_set_eq_of_lt _ hlt3]

/-- Concrete instance of the amended C2: from the empty table, allocation
returns 0, release of 0 and reallocation return 0 again, and the slot then
holds the new object. -/
theorem C2_fifo_reuse_witness :
    ∃ s1 s2 s3,
      encodeProxy (⟨[], [], []⟩ : RemoteState Nat) 1 = .ok (0, s1) ∧
      messageLoopStep env0 s1 (delProxyMsg 0) = ⟨s2, [.ack], false⟩ ∧
      encodeProxy s2 2 = .ok (0, s3) ∧
      pyGet s3.object_cache 0 = .ok 2 :=
  (C2_fifo_reuse env0 ⟨[], [], []⟩ 1 2).2 rfl

/-- C9: the remote's message loop sends no reply at all for a request whose
type is outside the seven handled types (die, set, get, set_proxy,
get_proxy, del_proxy, call) and leaves its state unchanged; in particular
the request types set_global and get_global, which the packaged master
sends, are not among the handled types, so such requests get zero
responses. -/
theorem C9_unknown_type_silent {α : Type} [DecidableEq α] (env : PyEnv α)
    (s : RemoteState α) (msg : Msg α) (h : msg.type_ ∉ handledTypes) :
    (messageLoopStep env s msg).responses = [] ∧
    (messageLoopStep env s msg).state = s ∧
    (messageLoopStep env s msg).exited = false ∧
    "set_global" ∉ handledTypes ∧ "get_global" ∉ handledTypes := by
  simp only [handledTypes, List.mem_cons, List.not_mem_nil, or_false, not_or] at h
  obtain ⟨h1, h2, h3, h4, h5, h6, h7⟩ := h
  refine ⟨?_, ?_, ?_, by decide, by decide⟩ <;>
    simp only [messageLoopStep, messageCases, if_neg h1, if_neg h2, if_neg h3,
      if_neg h4, if_neg h5, if_neg h6, if_neg h7]

/-- Concrete instance of C9: a set_global request (as the packaged master
would send) gets no response from this remote. -/
theorem C9_unknown_type_silent_witness :
    (messageLoopStep env0 ⟨[], [], []⟩
        ⟨"set_global", some (.str "x"), some 5, none, none, none⟩).responses = [] ∧
    "set_global" ∉ handledTypes :=
  ⟨(C9_unknown_type_silent env0 ⟨[], [], []⟩ _ (by decide)).1,
   (C9_unknown_type_silent env0 ⟨[], [], []⟩
      ⟨"set_global", some (.str "x"), some 5, none, none, none⟩ (by decide)).2.2.2.1⟩

/-- C10: the remote's get lookup consults the builtins before the globals —
after a set request binds a builtin name to any value, a get request for
that name still returns the builtin value; and a get request produces a
NameError response exactly when the name is neither a builtin nor a
global. -/
theorem C10_builtins_shadow_globals {α : Type} [DecidableEq α] (env : PyEnv α)
    (s : RemoteState α) (nm : String) (v bv : α)
    (hb : env.builtins nm = some bv) :
    (messageLoopStep env
        (messageLoopStep env s (setMsg (.str nm) v)).state
        (getMsg (.str nm))).responses = [.value bv] ∧
    (∀ nm1 : PyName α,
      (messageLoopStep env s (getMsg nm1)).responses =
          [.error "NameError"
            ("Undefined variable \"" ++ pyNameStr env nm1 ++ "\".")] ↔
        builtinsLookup env nm1 = none ∧ glookup s.globals_ nm1 = none) := by
  constructor
  · rw [messageLoopStep_get_builtin env _ nm hb]
  · intro nm1
    constructor
    · intro hresp
      cases hbl : builtinsLookup env nm1 with
      | some bv1 =>
        cases nm1 with
        | str str1 =>
          rw [messageLoopStep_get_builtin env s str1 hbl] at hresp
          simp at hresp
        | int n1 => simp [builtinsLookup] at hbl
        | obj a1 => simp [builtinsLookup] at hbl
      | none =>
        cases hgl : glookup s.globals_ nm1 with
        | some v1 =>
          rw [messageLoopStep_get_global env s nm1 hbl hgl] at hresp
          simp at hresp
        | none => exact ⟨rfl, rfl⟩
    · intro ⟨hbl, hgl⟩
      rw [messageLoopStep_get_missing env s nm1 hbl hgl]

/-- Concrete instance of C10: with the builtin name print bound to 5 by a
set request, get still answers the builtin value 101, and an unknown name
answers a NameError exactly as characterized. -/
theorem C10_builtins_shadow_globals_witness :
    (messageLoopStep env0
        (messageLoopStep env0 ⟨[], [], []⟩ (setMsg (.str "print") 5)).state
        (getMsg (.str "print"))).responses = [.value 101] ∧
    ((messageLoopStep env0 ⟨[], [], []⟩ (getMsg (.str "zzz"))).responses =
        [.error "NameError" "Undefined variable \"zzz\"."] ↔
      builtinsLookup env0 (.str "zzz") = none ∧
        glookup (⟨[], [], []⟩ : RemoteState Nat).globals_ (.str "zzz") = none) := by
  have h := C10_builtins_shadow_globals env0 ⟨[], [], []⟩ "print" 5 101 (by decide)
  exact ⟨h.1, h.2 (.str "zzz")⟩

/-- Filtering the canonical find list for one coordinate yields exactly the
(coordinate, summed value) pair when the coordinate occurs with a nonzero
value, and nothing otherwise. -/
theorem filter_cooFind (s : Coo) (c0 : Nat × Nat) :
    ∀ l : List (Nat × Nat), l.Nodup →
      (l.filterMap (fun c => if cooValueAt s c.1 c.2 = 0 then none
          else some (c, cooValueAt s c.1 c.2))).filter (fun e => e.1 = c0) =
        (if c0 ∈ l ∧ cooValueAt s c0.1 c0.2 ≠ 0
         then [(c0, cooValueAt s c0.1 c0.2)] else [])
  | [] => by
    intro _
    simp
  | c :: l => by
    intro hnd
    obtain ⟨hc, hnd1⟩ := List.nodup_cons.mp hnd
    have ih := filter_cooFind s c0 l hnd1
    by_cases hv : cooValueAt s c.1 c.2 = 0
    · have hnone : (if cooValueAt s c.1 c.2 = 0 then none
          else some (c, cooValueAt s c.1 c.2)) = none := if_pos hv
      rw [@List.filterMap_cons_none _ _
        (fun c1 => if cooValueAt s c1.1 c1.2 = 0 then none
          else some (c1, cooValueAt s c1.1 c1.2)) c l hnone, ih]
      by_cases hcc : c0 = c
      · subst hcc
        have hv0 : ¬cooValueAt s c0.1 c0.2 ≠ 0 := by simpa using hv
        simp [hv0]
      · simp [List.mem_cons, hcc]
    · have hsome : (if cooValueAt s c.1 c.2 = 0 then none
          else some (c, cooValueAt s c.1 c.2)) = some (c, cooValueAt s c.1 c.2) :=
        if_neg hv
      rw [@List.filterMap_cons_some _ _
        (fun c1 => if cooValueAt s c1.1 c1.2 = 0 then none
          else some (c1, cooValueAt s c1.1 c1.2)) c l _ hsome]
      by_cases hcc : c0 = c
      · subst hcc
        have hnotmem : ¬(c0 ∈ l ∧ cooValueAt s c0.1 c0.2 ≠ 0) := by
          intro hx
          exact hc hx.1
        rw [List.filter_cons, if_pos (by simp), ih, if_neg hnotmem,
          if_pos ⟨List.mem_cons_self c0 l, hv⟩]
      · have hne : c ≠ c0 := fun h => hcc h.symm
        rw [List.filter_cons, if_neg (by simp [hne]), ih]
        simp [List.mem_cons, hcc]

/-- A coordinate absent from the placements carries value zero. -/
theorem cooValueAt_of_not_mem (s : Coo) (i j : Nat)
    (h : (i, j) ∉ s.entries.map (fun e => e.1)) : cooValueAt s i j = 0 := by
  unfold cooValueAt
  have hnil : s.entries.filter (fun e => e.1 = (i, j)) = [] := by
    rw [List.filter_eq_nil_iff]
    intro e he
    simp only [decide_eq_true_eq]
    intro hcoord
    exact h (List.mem_map.mpr ⟨e, he, hcoord⟩)
  rw [hnil]
  rfl

/-- The canonical find list denotes the same matrix: the value at every
coordinate is preserved. -/
theorem cooValueAt_cooFind (s : Coo) (r c i j : Nat) :
    cooValueAt ⟨r, c, cooFind s⟩ i j = cooValueAt s i j := by
  show ((((s.entries.map (fun e => e.1)).dedup.filterMap
      (fun c => if cooValueAt s c.1 c.2 = 0 then none
        else some (c, cooValueAt s c.1 c.2))).filter
          (fun e => e.1 = (i, j))).map (fun e => e.2)).sum = cooValueAt s i j
  rw [filter_cooFind s (i, j) _ (List.nodup_dedup _)]
  by_cases hmem : (i, j) ∈ (s.entries.map (fun e => e.1)).dedup ∧
      cooValueAt s (i, j).1 (i, j).2 ≠ 0
  · rw [if_pos hmem]
    simp
  · rw [if_neg hmem]
    rw [not_and_or] at hmem
    cases hmem with
    | inl hnm =>
      rw [List.mem_dedup] at hnm
      rw [cooValueAt_of_not_mem s i j hnm]
      rfl
    | inr hz =>
      rw [not_not] at hz
      rw [hz]
      rfl

/-- Every canonical find entry sits at a coordinate of some placement. -/
theorem cooFind_mem_coord (s : Coo) (e : (Nat × Nat) × ℚ) (he : e ∈ cooFind s) :
    ∃ x ∈ s.entries, x.1 = e.1 := by
  unfold cooFind at he
  obtain ⟨c, hc, hce⟩ := List.mem_filterMap.mp he
  rw [List.mem_dedup] at hc
  obtain ⟨x, hx, hxc⟩ := List.mem_map.mp hc
  by_cases hv : cooValueAt s c.1 c.2 = 0
  · rw [if_pos hv] at hce
    cases hce
  · rw [if_neg hv] at hce
    cases hce
    exact ⟨x, hx, hxc⟩

/-- C5 (amended): decoding the encoding of a well-formed sparse matrix
yields a matrix of the same shape with the same value at every coordinate
(collisions are summed by construction, so fewer canonical nonzeros than
placements are handled); and a wire value whose three vectors are all
absent markers decodes to the empty sparse matrix of the declared shape. -/
theorem C5_sparse_roundtrip (s : Coo) (hwf : s.wf) :
    (∃ t : Coo, decode_sparse_matrix (encode_sparse_matrix s) = .ok t ∧
      t.rows = s.rows ∧ t.cols = s.cols ∧
      ∀ i j, cooValueAt t i j = cooValueAt s i j) ∧
    (∀ r c : Nat,
      decode_sparse_matrix ⟨[PyNum.int r, PyNum.int c], none, none, none⟩ =
        .ok ⟨r, c, []⟩) := by
  constructor
  · refine ⟨⟨s.rows, s.cols, cooFind s⟩, ?_, rfl, rfl, ?_⟩
    · have hzip : (((cooFind s).map (fun e => e.1.1)).zip
            ((cooFind s).map (fun e => e.1.2))).zip ((cooFind s).map (fun e => e.2)) =
          cooFind s := by
        rw [List.zip_map', List.zip_map']
        have : (fun e : (Nat × Nat) × ℚ => ((e.1.1, e.1.2), e.2)) = id := by
          funext e
          simp
        rw [this, List.map_id]
      have hall : (((((cooFind s).map (fun e => e.1.1)).zip
            ((cooFind s).map (fun e => e.1.2))).zip
              ((cooFind s).map (fun e => e.2))).all
            (fun e => e.1.1 < ((s.rows : Int)).toNat ∧
              e.1.2 < ((s.cols : Int)).toNat)) = true := by
        rw [hzip, List.all_eq_true]
        intro e he
        obtain ⟨x, hx, hxc⟩ := cooFind_mem_coord s e he
        have hb := hwf x hx
        rw [hxc] at hb
        simp only [Int.toNat_natCast, decide_eq_true_eq]
        exact hb
      simp only [decode_sparse_matrix, encode_sparse_matrix, ravelOrEmpty,
        List.map_cons, List.map_nil, pyInt]
      rw [if_pos ⟨Int.natCast_nonneg s.rows, Int.natCast_nonneg s.cols⟩]
      rw [if_pos (by simp)]
      rw [if_pos hall]
      rw [hzip]
      simp only [Int.toNat_natCast]
    · intro i j
      exact cooValueAt_cooFind s s.rows s.cols i j
  · intro r c
    simp only [decode_sparse_matrix, ravelOrEmpty, List.map_cons, List.map_nil, pyInt]
    rw [if_pos ⟨Int.natCast_nonneg r, Int.natCast_nonneg c⟩]
    rw [if_pos (by simp)]
    rw [if_pos (by simp)]
    simp only [Int.toNat_natCast]
    rfl

/-- C5 counterexample: a sparse wire value whose row vector alone is the
absent marker while the column and value vectors hold one entry each; the
claim predicts an empty sparse matrix of the declared shape, but decoding
substitutes [] only for the absent vector and the coo_matrix constructor
rejects the mismatched vector lengths, so decoding raises instead. -/
theorem C5_counterexample :
    decode_sparse_matrix ⟨[PyNum.int 2, PyNum.int 2], none, some [1], some [3]⟩ =
      .error "row, column, and data array must all be the same length" := by
  decide

/-- Concrete instance of the amended C5: a 2-by-2 matrix with a duplicate
placement at (0, 1) (a collision, summed to 5), a placement at (1, 0), and
an explicit zero placement survives the round trip with every coordinate's
value intact, and the all-absent wire value decodes to the empty matrix. -/
theorem C5_sparse_roundtrip_witness :
    (∃ t : Coo,
      decode_sparse_matrix (encode_sparse_matrix
        ⟨2, 2, [((0, 1), 2), ((0, 1), 3), ((1, 0), 5), ((0, 0), 0)]⟩) = .ok t ∧
      t.rows = 2 ∧ t.cols = 2 ∧
      ∀ i j, cooValueAt t i j =
        cooValueAt ⟨2, 2, [((0, 1), 2), ((0, 1), 3), ((1, 0), 5), ((0, 0), 0)]⟩ i j) ∧
    (∀ r c : Nat,
      decode_sparse_matrix ⟨[PyNum.int r, PyNum.int c], none, none, none⟩ =
        .ok ⟨r, c, []⟩) :=
  C5_sparse_roundtrip ⟨2, 2, [((0, 1), 2), ((0, 1), 3), ((1, 0), 5), ((0, 0), 0)]⟩
    (by decide)
